import Mathlib

/-!
Shallow embedding of the SPBTS core of `pawn_blockers`
(`src/modules/core/board_analysis.py`, `src/modules/core/metrics.py`,
`src/modules/core/classification.py`) and proofs about the frozen claims.

A board position is modelled as a partial map from square indices to pieces,
matching the `piece_at` query surface of the external chess library
(`chess.square(file_idx, rank_idx) = 8 * rank_idx + file_idx`).
-/

namespace PawnBlockers

inductive PieceType where
  | pawn | knight | bishop | rook | queen | king
deriving DecidableEq, Repr

inductive Color where
  | white | black
deriving DecidableEq, Repr

structure Piece where
  pieceType : PieceType
  color : Color
deriving DecidableEq, Repr

/-- A position: occupancy query by square index, as the core consumes it. -/
def Board : Type := Nat → Option Piece

/-- `chess.square(file_index, rank_index)` of the external library. -/
def square (fileIdx rankIdx : Nat) : Nat := 8 * rankIdx + fileIdx

/-- `board.piece_at(sq)` of the external library. -/
def piece_at (b : Board) (sq : Nat) : Option Piece := b sq

/-- `get_pawn_start_and_ahead_squares` (board_analysis.py lines 10-15). -/
def get_pawn_start_and_ahead_squares (fileIdx : Nat) (color : Color) : Nat × Nat :=
  if color = Color.white then (square fileIdx 1, square fileIdx 2)
  else (square fileIdx 6, square fileIdx 5)

/-- `is_pawn_exposed` (board_analysis.py lines 18-22). -/
def is_pawn_exposed (board : Board) (fileIdx : Nat) (color : Color) : Bool :=
  match piece_at board (get_pawn_start_and_ahead_squares fileIdx color).1 with
  | some piece => decide (piece.pieceType = PieceType.pawn ∧ piece.color = color)
  | none => false

/-- Return record of `get_blocking_info`:
`(friendly_non_pawn_block, enemy_block, any_block, blocker_piece_type)`. -/
structure BlockInfo where
  friendly_non_pawn_block : Bool
  enemy_block : Bool
  any_block : Bool
  blocker_piece_type : Option PieceType
deriving DecidableEq, Repr

/-- `get_blocking_info` (board_analysis.py lines 25-43). -/
def get_blocking_info (board : Board) (fileIdx : Nat) (color : Color) : BlockInfo :=
  match piece_at board (get_pawn_start_and_ahead_squares fileIdx color).2 with
  | none => ⟨false, false, false, none⟩
  | some piece =>
      if piece.color = color then
        ⟨decide (piece.pieceType ≠ PieceType.pawn), false, true, some piece.pieceType⟩
      else
        ⟨false, true, true, some piece.pieceType⟩

/-- A board with a single white pawn on f3 (square 21), the square ahead of
the white f-pawn's start square: a friendly same-file pawn blocker. -/
def friendlyPawnAheadBoard : Board :=
  fun sq => if sq = 21 then some ⟨PieceType.pawn, Color.white⟩ else none

/-- C1 counterexample: on a board with a friendly pawn directly ahead,
`get_blocking_info` reports `any_block = true` while both
`friendly_non_pawn_block` and `enemy_block` are false, so
`any_block ⇔ (friendly_non_pawn ∨ enemy)` fails at this concrete input. -/
theorem get_blocking_info_any_not_iff_flags :
    (get_blocking_info friendlyPawnAheadBoard 5 Color.white).any_block = true ∧
    ((get_blocking_info friendlyPawnAheadBoard 5 Color.white).friendly_non_pawn_block ||
      (get_blocking_info friendlyPawnAheadBoard 5 Color.white).enemy_block) = false := by
  decide

/-- C1 (amended): for every position, file index and side,
`friendly_non_pawn_block` and `enemy_block` are never both true, either of
them being true forces `any_block`, and `any_block` holds exactly when the
square directly ahead of the start square is occupied. -/
theorem get_blocking_info_flags_sound (board : Board) (fileIdx : Nat) (color : Color) :
    ((get_blocking_info board fileIdx color).friendly_non_pawn_block &&
      (get_blocking_info board fileIdx color).enemy_block) = false ∧
    (((get_blocking_info board fileIdx color).friendly_non_pawn_block ||
       (get_blocking_info board fileIdx color).enemy_block) &&
      !(get_blocking_info board fileIdx color).any_block) = false ∧
    (get_blocking_info board fileIdx color).any_block =
      (piece_at board (get_pawn_start_and_ahead_squares fileIdx color).2).isSome := by
  unfold get_blocking_info
  cases h : piece_at board (get_pawn_start_and_ahead_squares fileIdx color).2 with
  | none => simp
  | some piece =>
      by_cases hc : piece.color = color <;> simp [hc]

/-!
Replay loop shared by `calculate_spbts_for_game` (metrics.py lines 150-158)
and `classify_f_buckets_from_pgn` (classification.py lines 119-127):
```
positions = [board.copy()]
for i, move in enumerate(moves):
    if i >= max_plies - 1:
        break
    board.push(move)
    positions.append(board.copy())
```
Move application (`board.push`) belongs to the external chess library, so it
is a parameter of the embedding; the loop itself is embedded faithfully.
-/

/-- The body of the replay loop, starting at index `i`: the positions appended
after the initial one. -/
def buildPositionsAux {β μ : Type} (push : β → μ → β) :
    β → List μ → Nat → Int → List β
  | _, [], _, _ => []
  | b, m :: ms, i, maxPlies =>
      if (i : Int) ≥ maxPlies - 1 then []
      else
        let b2 := push b m
        b2 :: buildPositionsAux push b2 ms (i + 1) maxPlies

/-- The replay loop: the retained position list for one game. -/
def buildPositions {β μ : Type} (push : β → μ → β) (b0 : β)
    (moves : List μ) (maxPlies : Int) : List β :=
  b0 :: buildPositionsAux push b0 moves 0 maxPlies

theorem buildPositionsAux_length {β μ : Type} (push : β → μ → β)
    (ms : List μ) (b : β) (i : Nat) (maxPlies : Int) :
    (buildPositionsAux push b ms i maxPlies).length =
      min ms.length (maxPlies - 1 - i).toNat := by
  induction ms generalizing b i with
  | nil => simp [buildPositionsAux]
  | cons m ms ih =>
      unfold buildPositionsAux
      by_cases h : (i : Int) ≥ maxPlies - 1
      · have h0 : (maxPlies - 1 - i).toNat = 0 := by
          apply Int.toNat_of_nonpos
          omega
        simp [h, h0]
      · have h1 : 1 ≤ (maxPlies - 1 - i).toNat := by omega
        have h2 : (maxPlies - 1 - (i + 1 : Nat)).toNat = (maxPlies - 1 - i).toNat - 1 := by
          push_cast
          omega
        simp only [h, if_false, List.length_cons, ih]
        omega

/-- C2 counterexample: a game with zero available moves and ply cap 2 retains
one position (ply 0), not `min(0, 2) = 0` as the claim's invariant states. -/
theorem buildPositions_length_claim_false :
    (buildPositions (fun (b : Board) (_ : Unit) => b) friendlyPawnAheadBoard [] 2).length = 1 ∧
    (1 : Nat) ≠ min 0 2 := by
  constructor
  · rfl
  · decide

/-- C2 (amended): for every ply cap `max_plies ≥ 1`, every initial position
and every move list, the replay loop retains exactly
`min(moves_played + 1, max_plies)` positions — ply 0 always counts as one
position and at most `max_plies - 1` moves are applied. -/
theorem buildPositions_length {β μ : Type} (push : β → μ → β) (b0 : β)
    (moves : List μ) (maxPlies : Int) (h : 1 ≤ maxPlies) :
    (buildPositions push b0 moves maxPlies).length =
      min (moves.length + 1) maxPlies.toNat := by
  unfold buildPositions
  simp only [List.length_cons, buildPositionsAux_length]
  omega

/-- C2 witness: with ply cap 3 and two available moves the loop retains
`min(2 + 1, 3) = 3` positions. -/
theorem buildPositions_length_witness :
    (buildPositions (fun (b : Board) (_ : Unit) => b) friendlyPawnAheadBoard
      [(), ()] 3).length = min (2 + 1) (3 : Int).toNat :=
  buildPositions_length (fun (b : Board) (_ : Unit) => b) friendlyPawnAheadBoard
    [(), ()] 3 (by decide)

/-!
Fate tracker (`track_f_pawn_fate` and `_determine_pawn_movement`,
metrics.py lines 14-126). The Python function returns a dict over seven fixed
string keys; it is embedded as a function `String → Nat` together with the
key list, starting from the all-zero dict and incrementing one key at a time
exactly as the source does.
-/

/-- Out-of-range position access helper; every index the embedded loops use
is in range, so the default is never observed. -/
def emptyBoard : Board := fun _ => none

/-- `positions[i]` inside the loops of metrics.py (all accesses in range). -/
def posAt (positions : List Board) (i : Nat) : Board := positions.getD i emptyBoard

/-- The seven fate-dict keys of `track_f_pawn_fate`. -/
def fateKeys : List String :=
  ["never_blocked", "push_f3", "push_f4", "capture_e3", "capture_g3",
   "temporary_block", "permanent_block"]

/-- The initial all-zero fate dict. -/
def zeroFates : String → Nat := fun _ => 0

/-- `fates[key] += 1`. -/
def bumpFate (fates : String → Nat) (key : String) : String → Nat :=
  fun s => if s = key then fates s + 1 else fates s

/-- Total count stored in a fate dict (over the seven fixed keys). -/
def fateSum (fates : String → Nat) : Nat := (fateKeys.map fates).sum

/-- Is there a pawn of this color on this square (the repeated
`piece and piece.piece_type == chess.PAWN and piece.color == color` test)? -/
def pawnOfColorAt (board : Board) (sq : Nat) (color : Color) : Bool :=
  match piece_at board sq with
  | some piece => decide (piece.pieceType = PieceType.pawn ∧ piece.color = color)
  | none => false

/-- `_determine_pawn_movement` (metrics.py lines 97-126); `before_pos` and
`file_idx` are parameters the source never reads (the squares are hardcoded
to the f-file constants). Returns `none` for an unclassified movement. -/
def _determine_pawn_movement (before_pos after_pos : Board) (file_idx : Nat)
    (color : Color) : Option String :=
  let f3 := if color = Color.white then square 5 2 else square 5 5
  let f4 := if color = Color.white then square 5 3 else square 5 4
  let e3 := if color = Color.white then square 4 2 else square 4 5
  let g3 := if color = Color.white then square 6 2 else square 6 5
  if pawnOfColorAt after_pos f3 color then some "push_f3"
  else if pawnOfColorAt after_pos f4 color then some "push_f4"
  else if pawnOfColorAt after_pos e3 color then some "capture_e3"
  else if pawnOfColorAt after_pos g3 color then some "capture_g3"
  else none

/-- The `pawn_present_plies` list of `track_f_pawn_fate` (metrics.py lines
39-47, with `f_file_idx = 5`): plies at which the f-pawn sits on its start
square. -/
def pawn_present_plies (positions : List Board) (color : Color) : List Nat :=
  (List.range positions.length).filter
    (fun i => is_pawn_exposed (posAt positions i) 5 color)

/-- The `blocked_plies` list of `track_f_pawn_fate`: present plies whose
blocking info reports a friendly non-pawn blocker. -/
def blocked_plies (positions : List Board) (color : Color) : List Nat :=
  (pawn_present_plies positions color).filter
    (fun i => (get_blocking_info (posAt positions i) 5 color).friendly_non_pawn_block)

/-- The movement scan of `track_f_pawn_fate` (metrics.py lines 57-66): the
first ply at which the pawn is present and is gone at the next retained ply. -/
def fateMoverPly (positions : List Board) (color : Color) : Option Nat :=
  (List.range (positions.length - 1)).find? (fun i =>
    (pawn_present_plies positions color).contains i &&
      !(is_pawn_exposed (posAt positions (i + 1)) 5 color))

/-- `pawn_movement_fate` at the mover ply: the source enters the early-return
branch exactly when a mover ply is found *and* `_determine_pawn_movement`
returns a truthy fate (`if pawn_moved and pawn_movement_fate`). -/
def fateMoveFate (positions : List Board) (color : Color) : Option String :=
  (fateMoverPly positions color).bind (fun i =>
    _determine_pawn_movement (posAt positions i) (posAt positions (i + 1)) 5 color)

/-- The `pawn_freed` scan of `track_f_pawn_fate` (metrics.py lines 81-87):
after the first block, is there a ply where the pawn is present and no
longer blocked? -/
def pawnFreed (positions : List Board) (color : Color) (first_block_ply : Nat) : Bool :=
  (List.range' (first_block_ply + 1) (positions.length - (first_block_ply + 1))).any
    (fun i =>
      (pawn_present_plies positions color).contains i &&
        !(get_blocking_info (posAt positions i) 5 color).friendly_non_pawn_block)

/-- `track_f_pawn_fate` (metrics.py lines 14-94). When the movement fate is
`none` (no move found, or an unclassified move), control falls through to the
"pawn never moved" classification, exactly as in the source. -/
def track_f_pawn_fate (positions : List Board) (color : Color) : String → Nat :=
  if pawn_present_plies positions color = [] then zeroFates
  else
    match fateMoveFate positions color with
    | some fate => bumpFate zeroFates fate
    | none =>
        if blocked_plies positions color = [] then bumpFate zeroFates "never_blocked"
        else
          if pawnFreed positions color ((blocked_plies positions color).headD 0) then
            bumpFate zeroFates "temporary_block"
          else bumpFate zeroFates "permanent_block"

/-- Ply 0 of the C3 failing trace: a white pawn on its f2 start square. -/
def c3BeforeBoard : Board :=
  fun sq => if sq = 13 then some ⟨PieceType.pawn, Color.white⟩ else none

/-- Ply 1 of the C3 failing trace: the f2 pawn has been captured on its own
square (a black rook stands on f2); the pawn landed on none of f3/f4/e3/g3. -/
def c3AfterBoard : Board :=
  fun sq => if sq = 13 then some ⟨PieceType.rook, Color.black⟩ else none

/-- C3: at a trace where the f-pawn leaves its start square but the
destination matches none of the four recognized squares
(`_determine_pawn_movement` returns no fate), `track_f_pawn_fate` does NOT
leave all seven counts at 0: it falls through to the "pawn never moved"
branch and counts the game as `never_blocked`. -/
theorem track_f_pawn_fate_unclassified_move_counted :
    track_f_pawn_fate [c3BeforeBoard, c3AfterBoard] Color.white "never_blocked" = 1 ∧
    _determine_pawn_movement c3BeforeBoard c3AfterBoard 5 Color.white = none ∧
    fateSum (track_f_pawn_fate [c3BeforeBoard, c3AfterBoard] Color.white) = 1 := by
  refine ⟨by decide, by decide, by decide⟩

lemma posAt_eq_getElem (positions : List Board) (i : Nat) (h : i < positions.length) :
    posAt positions i = positions[i] := by
  simp [posAt, List.getD_eq_getElem?_getD, List.getElem?_eq_getElem h]

lemma pawn_present_plies_eq_nil_iff (positions : List Board) (color : Color) :
    pawn_present_plies positions color = [] ↔
      positions.any (fun p => is_pawn_exposed p 5 color) = false := by
  unfold pawn_present_plies
  rw [List.filter_eq_nil_iff]
  constructor
  · intro h
    rw [← Bool.not_eq_true, List.any_eq_true]
    rintro ⟨p, hp, hexp⟩
    obtain ⟨i, hlt, rfl⟩ := List.mem_iff_getElem.mp hp
    exact h i (List.mem_range.mpr hlt) (by rwa [posAt_eq_getElem _ _ hlt])
  · intro h i hi hexp
    rw [← Bool.not_eq_true, List.any_eq_true] at h
    have hlt := List.mem_range.mp hi
    exact h ⟨positions[i], List.getElem_mem hlt,
      by rwa [posAt_eq_getElem _ _ hlt] at hexp⟩

lemma _determine_pawn_movement_mem_fateKeys (before_pos after_pos : Board)
    (file_idx : Nat) (color : Color) (s : String)
    (h : _determine_pawn_movement before_pos after_pos file_idx color = some s) :
    s ∈ fateKeys := by
  simp only [_determine_pawn_movement] at h
  split_ifs at h <;> (cases h; decide)

lemma fateSum_bumpFate (k : String) (hk : k ∈ fateKeys) :
    fateSum (bumpFate zeroFates k) = 1 := by
  fin_cases hk <;> decide

lemma bumpFate_zero_le_one (k : String) (s : String) :
    bumpFate zeroFates k s ≤ 1 := by
  unfold bumpFate zeroFates
  split <;> simp

/-- `track_f_pawn_fate` either returns the zero dict (pawn never present) or
increments exactly one of the seven keys once. -/
lemma track_f_pawn_fate_cases (positions : List Board) (color : Color) :
    (pawn_present_plies positions color = [] ∧
      track_f_pawn_fate positions color = zeroFates) ∨
    (pawn_present_plies positions color ≠ [] ∧
      ∃ k ∈ fateKeys, track_f_pawn_fate positions color = bumpFate zeroFates k) := by
  by_cases hp : pawn_present_plies positions color = []
  · exact Or.inl ⟨hp, by rw [track_f_pawn_fate, if_pos hp]⟩
  · refine Or.inr ⟨hp, ?_⟩
    rw [track_f_pawn_fate, if_neg hp]
    cases hm : fateMoveFate positions color with
    | some fate =>
        obtain ⟨i, _, hdet⟩ := Option.bind_eq_some.mp hm
        exact ⟨fate, _determine_pawn_movement_mem_fateKeys _ _ _ _ _ hdet, rfl⟩
    | none =>
        by_cases hb : blocked_plies positions color = []
        · exact ⟨"never_blocked", by decide, by rw [if_pos hb]⟩
        · by_cases hf : pawnFreed positions color ((blocked_plies positions color).headD 0) = true
          · exact ⟨"temporary_block", by decide, by rw [if_neg hb, if_pos hf]⟩
          · exact ⟨"permanent_block", by decide, by
              rw [if_neg hb, if_neg hf]⟩

/-- C4: the seven fate counts sum to exactly 1 when the f-pawn occupied its
start square at some retained ply and to 0 when it never did, and no count
ever exceeds 1 (so no single call increments two categories). -/
theorem track_f_pawn_fate_sum (positions : List Board) (color : Color) :
    (fateSum (track_f_pawn_fate positions color) =
      if positions.any (fun p => is_pawn_exposed p 5 color) then 1 else 0) ∧
    (∀ s, track_f_pawn_fate positions color s ≤ 1) := by
  rcases track_f_pawn_fate_cases positions color with ⟨hp, heq⟩ | ⟨hp, k, hk, heq⟩
  · have hany := (pawn_present_plies_eq_nil_iff positions color).mp hp
    rw [heq, hany]
    exact ⟨by decide, fun s => by simp [zeroFates]⟩
  · have hany : positions.any (fun p => is_pawn_exposed p 5 color) = true := by
      by_contra h
      exact hp ((pawn_present_plies_eq_nil_iff positions color).mpr
        (Bool.not_eq_true _ ▸ h))
    rw [heq, hany]
    exact ⟨by simp [fateSum_bumpFate k hk], fun s => bumpFate_zero_le_one k s⟩

/-!
First-episode bucket classifier (`classify_f_bucket_for_color`,
classification.py lines 12-99). The per-ply `exposed` / `friendly_blocks`
lists of the source are embedded as per-index predicates; the source's
inline exposure and friendly-block checks are the functions below.
-/

/-- The inline exposure check of classification.py lines 34-35 (the f-file,
`file_idx = get_file_index("f") = 5`). -/
def fExposed (position : Board) (color : Color) : Bool :=
  match piece_at position (get_pawn_start_and_ahead_squares 5 color).1 with
  | some pawn => decide (pawn.pieceType = PieceType.pawn ∧ pawn.color = color)
  | none => false

/-- The inline friendly-block check of classification.py lines 38-44: false
whenever the pawn is not exposed. -/
def fFriendlyBlock (position : Board) (color : Color) : Bool :=
  fExposed position color &&
    (match piece_at position (get_pawn_start_and_ahead_squares 5 color).2 with
     | some blocker => decide (blocker.color = color ∧ blocker.pieceType ≠ PieceType.pawn)
     | none => false)

/-- `move_off_ply` (classification.py lines 47-51): the first ply `t ≥ 1`
with `exposed[t-1] ∧ ¬exposed[t]`. -/
def moveOffPly (positions : List Board) (color : Color) : Option Nat :=
  (List.range' 1 (positions.length - 1)).find? (fun t =>
    fExposed (posAt positions (t - 1)) color && !(fExposed (posAt positions t) color))

/-- `any_friendly_block` (classification.py line 54). -/
def anyFriendlyBlockFlag (positions : List Board) (color : Color) : Bool :=
  (List.range positions.length).any (fun t => fFriendlyBlock (posAt positions t) color)

/-- `any(friendly_blocks[:move_off_ply])` (classification.py line 61). -/
def priorFriendlyBlock (positions : List Board) (color : Color) (move_off_ply : Nat) : Bool :=
  (List.range move_off_ply).any (fun i => fFriendlyBlock (posAt positions i) color)

/-- `block_start` (classification.py lines 79-83): first ply with a friendly
block. -/
def blockStartPly (positions : List Board) (color : Color) : Option Nat :=
  (List.range positions.length).find? (fun t => fFriendlyBlock (posAt positions t) color)

/-- `block_end` (classification.py lines 89-96): first ply after
`block_start` where the pawn is unexposed, or exposed but unblocked;
defaults to `len(positions)` (censored at the window end). -/
def blockEndPly (positions : List Board) (color : Color) (block_start : Nat) : Nat :=
  ((List.range' (block_start + 1) (positions.length - (block_start + 1))).find?
    (fun t =>
      !(fExposed (posAt positions t) color) ||
        (fExposed (posAt positions t) color && !(fFriendlyBlock (posAt positions t) color)))).getD
    positions.length

/-- The move-off destination inspection (classification.py lines 61-76). -/
def moveOffBranch (positions : List Board) (color : Color) (move_off_ply : Nat) : String :=
  let position := posAt positions move_off_ply
  let f3_or_f6 := square 5 (if color = Color.white then 2 else 5)
  let f4_or_f5 := square 5 (if color = Color.white then 3 else 4)
  if pawnOfColorAt position f3_or_f6 color then "A2"
  else if pawnOfColorAt position f4_or_f5 color then "A3"
  else "other"

/-- The blocking-episode branch (classification.py lines 78-99), including
the defensive `block_start is None → "other"` fallback. -/
def blockEpisodeBranch (positions : List Board) (color : Color) : String :=
  match blockStartPly positions color with
  | none => "other"
  | some block_start =>
      if blockEndPly positions color block_start - block_start ≤ 2 then "B4" else "B5"

/-- `classify_f_bucket_for_color` (classification.py lines 12-99); the
`max_plies` parameter is accepted but, as in the source, never read. -/
def classify_f_bucket_for_color (positions : List Board) (color : Color)
    (max_plies : Int) : String :=
  if (moveOffPly positions color).isNone && !(anyFriendlyBlockFlag positions color) then
    "A1"
  else
    match moveOffPly positions color with
    | some t =>
        if priorFriendlyBlock positions color t then blockEpisodeBranch positions color
        else moveOffBranch positions color t
    | none => blockEpisodeBranch positions color

/-- The standard chess back rank, by file index. -/
def backRank : Nat → PieceType
  | 0 => PieceType.rook
  | 1 => PieceType.knight
  | 2 => PieceType.bishop
  | 3 => PieceType.queen
  | 4 => PieceType.king
  | 5 => PieceType.bishop
  | 6 => PieceType.knight
  | _ => PieceType.rook

/-- The standard starting position. -/
def startBoard : Board := fun sq =>
  let f := sq % 8
  let r := sq / 8
  if r = 0 then some ⟨backRank f, Color.white⟩
  else if r = 1 then some ⟨PieceType.pawn, Color.white⟩
  else if r = 6 then some ⟨PieceType.pawn, Color.black⟩
  else if r = 7 then some ⟨backRank f, Color.black⟩
  else none

/-- The position after `1. f3`: f2 (square 13) vacated, white pawn on f3
(square 21). -/
def f3Board : Board := fun sq =>
  if sq = 13 then none
  else if sq = 21 then some ⟨PieceType.pawn, Color.white⟩
  else startBoard sq

/-- Retained positions of the game `1. f3` with ply cap ≥ 2. -/
def f3Positions : List Board := [startBoard, f3Board]

/-- The position after `1. Nf3`: g1 (square 6) vacated, white knight on f3
(square 21), blocking the white f-pawn. -/
def nf3Board : Board := fun sq =>
  if sq = 6 then none
  else if sq = 21 then some ⟨PieceType.knight, Color.white⟩
  else startBoard sq

/-- Retained positions of the game `1. Nf3` with ply cap ≥ 2. -/
def nf3Positions : List Board := [startBoard, nf3Board]

lemma moveOffBranch_mem (positions : List Board) (color : Color) (t : Nat) :
    moveOffBranch positions color t ∈ ["A1", "A2", "A3", "B4", "B5", "other"] := by
  simp only [moveOffBranch]
  split_ifs <;> decide

lemma blockEpisodeBranch_eq_duration_test (positions : List Board) (color : Color)
    (block_start : Nat) (hbs : blockStartPly positions color = some block_start) :
    blockEpisodeBranch positions color =
      if blockEndPly positions color block_start - block_start ≤ 2 then "B4"
      else "B5" := by
  unfold blockEpisodeBranch
  rw [hbs]

lemma blockEpisodeBranch_mem (positions : List Board) (color : Color) :
    blockEpisodeBranch positions color ∈ ["A1", "A2", "A3", "B4", "B5", "other"] := by
  unfold blockEpisodeBranch
  split
  · decide
  · split_ifs <;> decide

/-- C8: the bucket classifier is total — for every positions list (including
the empty list) and every side it returns exactly one element of
{A1, A2, A3, B4, B5, other}. -/
theorem classify_f_bucket_for_color_total (positions : List Board) (color : Color)
    (max_plies : Int) :
    classify_f_bucket_for_color positions color max_plies ∈
      ["A1", "A2", "A3", "B4", "B5", "other"] := by
  unfold classify_f_bucket_for_color
  split
  · decide
  · split
    · split_ifs
      · exact blockEpisodeBranch_mem positions color
      · exact moveOffBranch_mem positions color _
    · exact blockEpisodeBranch_mem positions color

/-- C10: the result of `classify_f_bucket_for_color` depends only on the
positions list and the side — the `max_plies` parameter is never read. -/
theorem classify_f_bucket_for_color_ignores_max_plies (positions : List Board)
    (color : Color) (m1 m2 : Int) :
    classify_f_bucket_for_color positions color m1 =
      classify_f_bucket_for_color positions color m2 := rfl

/-- C6: when the pawn moves off its start square at ply `t` with no friendly
block at any earlier ply, the position immediately after move-off decides the
bucket — a same-side pawn one square ahead of the start square yields A2,
else two squares ahead yields A3, else other; in particular the game `1. f3`
classifies white as A2 and black as A1. -/
theorem classify_f_bucket_for_color_moveoff (positions : List Board) (color : Color)
    (t : Nat) (max_plies : Int)
    (h1 : moveOffPly positions color = some t)
    (h2 : priorFriendlyBlock positions color t = false) :
    (classify_f_bucket_for_color positions color max_plies =
      (if pawnOfColorAt (posAt positions t)
          (square 5 (if color = Color.white then 2 else 5)) color then "A2"
       else if pawnOfColorAt (posAt positions t)
          (square 5 (if color = Color.white then 3 else 4)) color then "A3"
       else "other")) ∧
    classify_f_bucket_for_color f3Positions Color.white 24 = "A2" ∧
    classify_f_bucket_for_color f3Positions Color.black 24 = "A1" := by
  refine ⟨?_, by decide, by decide⟩
  unfold classify_f_bucket_for_color
  rw [h1]
  simp [h2, moveOffBranch]

/-- C6 witness: for the game `1. f3`, the move-off hypotheses hold at ply 1
for white and the destination inspection applies. -/
theorem classify_f_bucket_for_color_moveoff_witness :
    classify_f_bucket_for_color f3Positions Color.white 24 =
      (if pawnOfColorAt (posAt f3Positions 1)
          (square 5 (if Color.white = Color.white then 2 else 5)) Color.white then "A2"
       else if pawnOfColorAt (posAt f3Positions 1)
          (square 5 (if Color.white = Color.white then 3 else 4)) Color.white then "A3"
       else "other") :=
  (classify_f_bucket_for_color_moveoff f3Positions Color.white 1 24
    (by decide) (by decide)).1

/-- C5: when control reaches the blocking-episode branch and `block_start` is
the first friendly-block ply, the classifier returns B4 exactly when
`block_end - block_start ≤ 2` and B5 exactly when the duration exceeds 2,
with `block_end` the first later ply where the pawn is unexposed or exposed
but unblocked (defaulting to `len(positions)`). -/
theorem classify_f_bucket_for_color_block_episode (positions : List Board)
    (color : Color) (max_plies : Int) (block_start : Nat)
    (hfb : anyFriendlyBlockFlag positions color = true)
    (hmo : moveOffPly positions color = none ∨
      ∃ t, moveOffPly positions color = some t ∧
        priorFriendlyBlock positions color t = true)
    (hbs : blockStartPly positions color = some block_start) :
    (classify_f_bucket_for_color positions color max_plies = "B4" ↔
      blockEndPly positions color block_start - block_start ≤ 2) ∧
    (classify_f_bucket_for_color positions color max_plies = "B5" ↔
      2 < blockEndPly positions color block_start - block_start) := by
  have hcl : classify_f_bucket_for_color positions color max_plies =
      blockEpisodeBranch positions color := by
    unfold classify_f_bucket_for_color
    rcases hmo with hmo | ⟨t, hmo, hpr⟩
    · rw [hmo]
      simp [hfb]
    · rw [hmo]
      simp [hfb, hpr]
  rw [hcl, blockEpisodeBranch_eq_duration_test positions color block_start hbs]
  by_cases hd : blockEndPly positions color block_start - block_start ≤ 2
  · rw [if_pos hd]
    exact ⟨⟨fun _ => hd, fun _ => rfl⟩,
      ⟨fun h => absurd h (by decide), fun h => absurd hd (by omega)⟩⟩
  · rw [if_neg hd]
    exact ⟨⟨fun h => absurd h (by decide), fun h => absurd h hd⟩,
      ⟨fun _ => by omega, fun _ => rfl⟩⟩

/-- C5 witness: for the game `1. Nf3`, white's blocking episode starts at
ply 1, the branch hypotheses hold, and the duration test applies. -/
theorem classify_f_bucket_for_color_block_episode_witness :
    (classify_f_bucket_for_color nf3Positions Color.white 24 = "B4" ↔
      blockEndPly nf3Positions Color.white 1 - 1 ≤ 2) ∧
    (classify_f_bucket_for_color nf3Positions Color.white 24 = "B5" ↔
      2 < blockEndPly nf3Positions Color.white 1 - 1) :=
  classify_f_bucket_for_color_block_episode nf3Positions Color.white 24 1
    (by decide) (Or.inl (by decide)) (by decide)

/-- C9: the defensive fallback of the bucket classifier is unreachable —
whenever control reaches the blocking-episode branch (neither the A1 guard
nor the move-off guard fired), the search for the first friendly-block ply
succeeds. -/
theorem blockStartPly_isSome_when_branch_reached (positions : List Board)
    (color : Color)
    (h1 : ¬(moveOffPly positions color = none ∧
      anyFriendlyBlockFlag positions color = false))
    (h2 : moveOffPly positions color = none ∨
      ∃ t, moveOffPly positions color = some t ∧
        priorFriendlyBlock positions color t = true) :
    (blockStartPly positions color).isSome = true := by
  rw [blockStartPly, List.find?_isSome]
  rcases h2 with hmo | ⟨t, hmo, hpr⟩
  · have hfb : anyFriendlyBlockFlag positions color = true := by
      by_contra h
      exact h1 ⟨hmo, by simpa using h⟩
    rw [anyFriendlyBlockFlag, List.any_eq_true] at hfb
    exact hfb
  · rw [priorFriendlyBlock, List.any_eq_true] at hpr
    obtain ⟨i, hi, hfb⟩ := hpr
    have hit := List.mem_range.mp hi
    have ht := List.mem_range'_1.mp (List.mem_of_find?_eq_some hmo)
    exact ⟨i, List.mem_range.mpr (by omega), hfb⟩

/-- C9 witness: for the game `1. Nf3`, the branch-reach hypotheses hold for
white and the first friendly-block ply is found. -/
theorem blockStartPly_isSome_witness :
    (blockStartPly nf3Positions Color.white).isSome = true :=
  blockStartPly_isSome_when_branch_reached nf3Positions Color.white
    (by decide) (Or.inl (by decide))

/-!
Per-side aggregation and summary (`calculate_spbts_for_game` /
`summarize_side`, metrics.py lines 160-248). The analysis loop counts, per
side, exposure and blocking over every retained ply and every one of the 8
files; `summarize_side` divides by the exposure count, returning explicit
`None` values when the side was never exposed.
-/

/-- `aggregates[color]["exposure"]` (metrics.py lines 172-175). -/
def exposureCount (positions : List Board) (color : Color) : Nat :=
  (positions.map (fun position =>
    ((List.range 8).filter (fun file_idx => is_pawn_exposed position file_idx color)).length)).sum

/-- `aggregates[color]["friendly_np"]` (metrics.py lines 178-182):
counted only while exposed. -/
def friendlyNPCount (positions : List Board) (color : Color) : Nat :=
  (positions.map (fun position =>
    ((List.range 8).filter (fun file_idx =>
      is_pawn_exposed position file_idx color &&
        (get_blocking_info position file_idx color).friendly_non_pawn_block)).length)).sum

/-- `aggregates[color]["enemy"]` (metrics.py lines 183-184). -/
def enemyCount (positions : List Board) (color : Color) : Nat :=
  (positions.map (fun position =>
    ((List.range 8).filter (fun file_idx =>
      is_pawn_exposed position file_idx color &&
        (get_blocking_info position file_idx color).enemy_block)).length)).sum

/-- `aggregates[color]["any"]` (metrics.py lines 185-186). -/
def anyBlockCount (positions : List Board) (color : Color) : Nat :=
  (positions.map (fun position =>
    ((List.range 8).filter (fun file_idx =>
      is_pawn_exposed position file_idx color &&
        (get_blocking_info position file_idx color).any_block)).length)).sum

/-- `per_file_exposure[color][i]` (metrics.py line 175). -/
def perFileExposure (positions : List Board) (color : Color) (file_idx : Nat) : Nat :=
  (positions.filter (fun position => is_pawn_exposed position file_idx color)).length

/-- `per_file_friendly_blocks[color][i]` (metrics.py line 182). -/
def perFileFriendlyBlocks (positions : List Board) (color : Color) (file_idx : Nat) : Nat :=
  (positions.filter (fun position =>
    is_pawn_exposed position file_idx color &&
      (get_blocking_info position file_idx color).friendly_non_pawn_block)).length

/-- The per-side summary record returned by `summarize_side`
(metrics.py lines 217-248); `none` plays the role of Python's `None`. -/
structure SideSummary where
  exposure : Nat
  spbts_friendlyNP : Option ℚ
  spbts_enemy : Option ℚ
  spbts_any : Option ℚ
  per_file_friendlyNP : Option (List (Option ℚ))
  f_pawn_fates : Option (String → Nat)

/-- `summarize_side` (metrics.py lines 217-248). -/
def summarize_side (positions : List Board) (color : Color) : SideSummary :=
  let exposure := exposureCount positions color
  if exposure = 0 then
    ⟨0, none, none, none, none, none⟩
  else
    let per_file_rates := (List.range 8).map (fun i =>
      let file_exposure := perFileExposure positions color i
      if 0 < file_exposure then
        some ((perFileFriendlyBlocks positions color i : ℚ) / (file_exposure : ℚ))
      else none)
    ⟨exposure,
     some ((friendlyNPCount positions color : ℚ) / (exposure : ℚ)),
     some ((enemyCount positions color : ℚ) / (exposure : ℚ)),
     some ((anyBlockCount positions color : ℚ) / (exposure : ℚ)),
     some per_file_rates,
     some (track_f_pawn_fate positions color)⟩

/-- C7: whenever a side's exposure count over the retained window is 0, the
summary reports every derived rate — SPBTS friendly, enemy, any, and the
per-file friendly rates — as the explicit undefined value `none`, which is
distinct from `some 0`. -/
theorem summarize_side_zero_exposure_undefined (positions : List Board) (color : Color)
    (h : exposureCount positions color = 0) :
    (summarize_side positions color).spbts_friendlyNP = none ∧
    (summarize_side positions color).spbts_enemy = none ∧
    (summarize_side positions color).spbts_any = none ∧
    (summarize_side positions color).per_file_friendlyNP = none ∧
    (none : Option ℚ) ≠ some 0 := by
  unfold summarize_side
  rw [h]
  simp

/-- C7 witness: the empty retained window has exposure 0 and an all-undefined
summary. -/
theorem summarize_side_zero_exposure_witness :
    (summarize_side [] Color.white).spbts_friendlyNP = none ∧
    (summarize_side [] Color.white).spbts_enemy = none ∧
    (summarize_side [] Color.white).spbts_any = none ∧
    (summarize_side [] Color.white).per_file_friendlyNP = none ∧
    (none : Option ℚ) ≠ some 0 :=
  summarize_side_zero_exposure_undefined [] Color.white (by decide)

end PawnBlockers
